import Mathlib

/-!
Shallow embedding (in Lean 4) of the protocol-multiplexing core of
chrome-debugger-mcp (src/references/chrome-debugger-mcp/server.py):

* `CDPClient` — one CDP WebSocket session (§ server.py lines 70-230):
  request-id counter `msg_id`, the `pending_responses` table of in-flight
  requests, the `paused_data` pause snapshot, the `event_handlers` dispatch
  table, and the `breakpoints` table.
* `CDPClient.processFrame` / `CDPClient.receiveLoop` — the body of
  `_receive_loop` (lines 144-164) processing decoded frames one at a time,
  with the loop's try/except control flow made explicit.
* `CDPClient.handle_event` — `_handle_event` (lines 166-186).
* `CDPClient.send_command_issue` / `send_command_finish` /
  `send_command_timeout` — the three phases of `send_command`
  (lines 188-230): issuance (connectivity check, id allocation, slot
  registration, frame write), completion on a resolved future, and the
  `asyncio.TimeoutError` path.
* `CDPConnectionManager` — the multi-session registry (lines 233-342).
* `debugger_step_over` / `debugger_step_into` / `debugger_step_out` /
  `debugger_resume` / `debugger_evaluate_on_call_frame` — the decision core
  of the corresponding MCP tools (lines 1583-1778): connection resolution,
  the `paused_data` truthiness check, and which remote command is issued.
* `debugger_set_breakpoint_params` / `reported_actual_line` — the 1-indexed
  to 0-indexed line conversion of `debugger_set_breakpoint`
  (lines 1475-1511).

JSON values are modelled by the inductive `Json` (numbers restricted to
integers: every number the claims touch — request ids, line numbers — is an
integer in the source). Python dicts from `json.loads` are modelled as
association lists `List (String × Json)`; the source only ever receives
JSON objects on this connection, so undecodable payloads are modelled by the
`RawFrame.bad` constructor and decodable ones by `RawFrame.frame`.
`asyncio.Future` slots become `FutureState` (unresolved / set_result /
set_exception). A user event handler is modelled by what the receive loop
can observe of it: a function from the event params to a Bool that is `true`
exactly when the handler raises.
-/

/-- A JSON value (numbers restricted to integers, which covers every field
the multiplexing layer inspects: request ids, line numbers, columns). -/
inductive Json where
  | null
  | bool (b : Bool)
  | num (n : Int)
  | str (s : String)
  | arr (elems : List Json)
  | obj (fields : List (String × Json))

/-- Python truthiness of a JSON value: `None`, `False`, `0`, `""`, `[]` and
`{}` are falsy, everything else truthy. This is the test the source applies
in `if not cdp.paused_data`, `if condition:` and `params or {}`. -/
def Json.truthy : Json → Bool
  | .null => false
  | .bool b => b
  | .num n => n != 0
  | .str s => !s.isEmpty
  | .arr elems => !elems.isEmpty
  | .obj fields => !fields.isEmpty

/-- Whether a JSON value is the given string (used to compare an envelope's
method field against a method-name literal, as `==` does in Python). -/
def Json.isStr : Json → String → Bool
  | .str s, t => s = t
  | _, _ => false

/-- Extract an integer from a JSON value (an incoming id of any other shape
never equals one of the integer keys of `pending_responses`). -/
def Json.asInt : Json → Option Int
  | .num n => some n
  | _ => none

/-- Python dict field lookup on an association list (`key in d` / `d[key]` /
`d.get(key)`); keys produced by `json.loads` are unique. -/
def lookupKey {α β : Type} [DecidableEq α] : List (α × β) → α → Option β
  | [], _ => none
  | (k, v) :: rest, key => if k = key then some v else lookupKey rest key

/-- Python `del d[key]` on an association list with unique keys. -/
def eraseKey {α β : Type} [DecidableEq α] : List (α × β) → α → List (α × β)
  | [], _ => []
  | (k, v) :: rest, key =>
      if k = key then eraseKey rest key else (k, v) :: eraseKey rest key

/-- Whether a key is present (`key in d`). -/
def hasKey {α β : Type} [DecidableEq α] (l : List (α × β)) (key : α) : Bool :=
  (lookupKey l key).isSome

/-- The first key in insertion order (`next(iter(d.keys()), None)`). -/
def firstKey {α β : Type} : List (α × β) → Option α
  | [] => none
  | (k, _) :: _ => some k

/-- The state of one `asyncio.Future` stored in `pending_responses`:
unresolved, resolved via `set_result` with a response envelope, or failed
via `set_exception` with an error message. (The source itself only ever
calls `set_result`; the `failure` constructor exists so that the statement
"pending requests are failed with a connection-closed error" is expressible
about the model.) -/
inductive FutureState where
  | unresolved
  | result (envelope : List (String × Json))
  | failure (msg : String)

/-- State of one CDP session (`class CDPClient`, server.py lines 70-81):
`ws_connected` models `self.ws is not None`, `ws_open` whether that
WebSocket is still open, `receive_task` the `_receive_loop` task
(`none` = never started, `some true` = running, `some false` = cancelled). -/
structure CDPClient where
  ws_connected : Bool
  ws_open : Bool
  receive_task : Option Bool
  msg_id : Int
  pending_responses : List (Int × FutureState)
  paused_data : Option Json
  event_handlers : List (String × (Json → Bool))
  breakpoints : List (String × Json)

/-- `CDPClient.__init__`: no socket, no task, counter 0, empty tables. -/
def CDPClient.init : CDPClient :=
  { ws_connected := false
    ws_open := false
    receive_task := none
    msg_id := 0
    pending_responses := []
    paused_data := none
    event_handlers := []
    breakpoints := [] }

/-- `CDPClient.disconnect` (server.py lines 132-142): if a receive task
exists, cancel it (and await the cancellation); if a WebSocket exists, close
it. Nothing else is touched — in particular `pending_responses` is not. -/
def CDPClient.disconnect (st : CDPClient) : CDPClient :=
  let st1 := match st.receive_task with
    | some _ => { st with receive_task := some false }
    | none => st
  if st1.ws_connected then { st1 with ws_open := false } else st1

/-- Handler lookup `method in self.event_handlers` for the raw method value
of an envelope: only a string method can match a registered name. -/
def handlerFor (handlers : List (String × (Json → Bool))) : Json → Option (Json → Bool)
  | .str s => lookupKey handlers s
  | _ => none

/-- The built-in part of `_handle_event` (server.py lines 171-182):
`Debugger.paused` stores the params as `paused_data`, `Debugger.resumed`
clears it, any other method leaves the state unchanged. -/
def builtinUpdate (st : CDPClient) (method params : Json) : CDPClient :=
  if method.isStr "Debugger.paused" then { st with paused_data := some params }
  else if method.isStr "Debugger.resumed" then { st with paused_data := none }
  else st

/-- `CDPClient._handle_event` (server.py lines 166-186): read
`event["method"]` and `event.get("params", {})`; built-in handling first —
`Debugger.paused` stores the params as `paused_data`, `Debugger.resumed`
clears it — then, if a user handler is registered for the method, invoke it
with the params. The returned Bool is `true` iff the user handler raised
(its exception propagates to the caller, `_receive_loop`). Callers
guarantee the `"method"` field is present, so the `getD` default for the
method is never taken in reachable calls. -/
def CDPClient.handle_event (st : CDPClient) (event : List (String × Json)) :
    CDPClient × Bool :=
  let method := (lookupKey event "method").getD Json.null
  let params := (lookupKey event "params").getD (Json.obj [])
  let st1 := builtinUpdate st method params
  match handlerFor st1.event_handlers method with
  | some h => (st1, h params)
  | none => (st1, false)

/-- `future.set_result(data)` on the pending slot with the given key. -/
def resolveKey (pending : List (Int × FutureState)) (n : Int)
    (envelope : List (String × Json)) : List (Int × FutureState) :=
  pending.map (fun kv => if kv.1 = n then (kv.1, FutureState.result envelope) else kv)

/-- The body of `_receive_loop` for one decoded frame (server.py lines
148-158): if the envelope has an `"id"` field it is a response — when that
id is a pending unresolved future, `set_result` it; when the id is unknown,
the frame is discarded; `set_result` on an already-resolved future raises
`InvalidStateError` (returned Bool `true` = an exception escaped the body).
Otherwise, if it has a `"method"` field it is an event, dispatched through
`_handle_event` (whose user handler may raise). A frame with neither field
falls through both branches: silently skipped. -/
def CDPClient.processFrame (st : CDPClient) (data : List (String × Json)) :
    CDPClient × Bool :=
  match lookupKey data "id" with
  | some idv =>
      match idv.asInt with
      | some n =>
          match lookupKey st.pending_responses n with
          | some FutureState.unresolved =>
              ({ st with pending_responses := resolveKey st.pending_responses n data },
               false)
          | some _ => (st, true)
          | none => (st, false)
      | none => (st, false)
  | none =>
      match lookupKey data "method" with
      | some _ => st.handle_event data
      | none => (st, false)

/-- One frame as delivered by the `async for` over the WebSocket: either a
payload `json.loads` fails on (`bad`), or a decoded JSON object. -/
inductive RawFrame where
  | bad
  | frame (data : List (String × Json))

/-- How `_receive_loop` ended: the message stream was exhausted (connection
closed), or an exception escaped the loop body and was caught by the
`except Exception` clause (server.py lines 162-164), ending the loop. -/
inductive LoopEnd where
  | streamEnded
  | errorCaught

/-- `_receive_loop` over a finite message stream (server.py lines 144-164).
A `json.loads` failure, an `InvalidStateError` from a duplicate response,
or an exception from a user event handler all propagate out of the loop
body into the surrounding `except Exception` handler, which logs (in DEBUG
mode) and falls off the end: the loop terminates and the remaining frames
are never read. -/
def CDPClient.receiveLoop (st : CDPClient) : List RawFrame → CDPClient × LoopEnd
  | [] => (st, LoopEnd.streamEnded)
  | RawFrame.bad :: _ => (st, LoopEnd.errorCaught)
  | RawFrame.frame data :: rest =>
      match st.processFrame data with
      | (st1, false) => st1.receiveLoop rest
      | (st1, true) => (st1, LoopEnd.errorCaught)

/-- Python `params or {}` (server.py line 208): a missing or falsy params
argument is replaced by the empty object. -/
def pyOrEmptyObj : Option Json → Json
  | some p => if p.truthy then p else Json.obj []
  | none => Json.obj []

/-- One outgoing command frame `{"id": .., "method": .., "params": ..}`. -/
structure OutgoingMessage where
  id : Int
  method : String
  params : Json

/-- Issuance phase of `send_command` (server.py lines 199-216): if
`self.ws` is `None`, raise "Not connected to Chrome CDP" — before the
counter is incremented, before any slot is registered, before anything is
written. Otherwise increment `msg_id`, register an unresolved future under
the new id, and write the encoded frame. Returns (new state, frames
written, allocated id or error). -/
def CDPClient.send_command_issue (st : CDPClient) (method : String)
    (params : Option Json) :
    CDPClient × List OutgoingMessage × Except String Int :=
  if st.ws_connected = false then
    (st, [], Except.error "Not connected to Chrome CDP")
  else
    let msgId := st.msg_id + 1
    ({ st with
        msg_id := msgId
        pending_responses := st.pending_responses ++ [(msgId, FutureState.unresolved)] },
     [{ id := msgId, method := method, params := pyOrEmptyObj params }],
     Except.ok msgId)

/-- Completion phase of `send_command` once the receive loop has resolved
the future with a response envelope (server.py lines 220-226): delete the
pending entry; if the envelope carries an `"error"` field fail with a CDP
error, else return `response.get("result", {})`. -/
def CDPClient.send_command_finish (st : CDPClient) (msgId : Int)
    (envelope : List (String × Json)) : CDPClient × Except String Json :=
  let st1 := { st with pending_responses := eraseKey st.pending_responses msgId }
  match lookupKey envelope "error" with
  | some _ => (st1, Except.error "CDP error")
  | none => (st1, Except.ok ((lookupKey envelope "result").getD (Json.obj [])))

/-- Timeout phase of `send_command` (server.py lines 228-230): on
`asyncio.TimeoutError` delete this call's own pending entry and raise
"CDP command timeout: <method>". Nothing else in the client changes. -/
def CDPClient.send_command_timeout (st : CDPClient) (msgId : Int)
    (method : String) : CDPClient × Except String Json :=
  ({ st with pending_responses := eraseKey st.pending_responses msgId },
   Except.error ("CDP command timeout: " ++ method))

/-- The multi-session registry (`class CDPConnectionManager`, server.py
lines 233-342): an insertion-ordered map from connection id to client,
plus the optional active id. -/
structure CDPConnectionManager where
  connections : List (String × CDPClient)
  active_connection_id : Option String

/-- `CDPConnectionManager.__init__`: empty map, no active connection. -/
def CDPConnectionManager.init : CDPConnectionManager :=
  { connections := [], active_connection_id := none }

/-- `CDPConnectionManager.connect` (server.py lines 240-277): fail if the
id already exists (registry unchanged); then attempt the low-level
`cdp.connect` — `connect_ok = false` models that raising, which propagates
with the registry unchanged. On success store the client and, if there is
no active connection yet, make this one active. -/
def CDPConnectionManager.connect (m : CDPConnectionManager)
    (connection_id : String) (cdp : CDPClient) (connect_ok : Bool) :
    CDPConnectionManager × Except String String :=
  if hasKey m.connections connection_id then
    (m, Except.error ("Error: Connection '" ++ connection_id ++
        "' already exists. Use chrome_disconnect first."))
  else if connect_ok = false then
    (m, Except.error "Failed to connect to Chrome")
  else
    let m1 : CDPConnectionManager :=
      { connections := m.connections ++ [(connection_id, cdp)]
        active_connection_id := m.active_connection_id }
    let m2 : CDPConnectionManager :=
      if m1.active_connection_id = none then
        { m1 with active_connection_id := some connection_id }
      else m1
    (m2, Except.ok ("Connected (ID: " ++ connection_id ++ ")"))

/-- `CDPConnectionManager.disconnect` (server.py lines 279-292): fail if
the id is unknown; otherwise close that client, remove its entry, and — if
it was the active one — reassign `active_connection_id` to the first
remaining key in insertion order (`next(iter(keys), None)`), or to `none`
when the map became empty. -/
def CDPConnectionManager.disconnect (m : CDPConnectionManager)
    (connection_id : String) : CDPConnectionManager × Except String String :=
  if hasKey m.connections connection_id = false then
    (m, Except.error ("Error: Connection '" ++ connection_id ++ "' not found"))
  else
    let conns := eraseKey m.connections connection_id
    let active :=
      if m.active_connection_id = some connection_id then firstKey conns
      else m.active_connection_id
    ({ connections := conns, active_connection_id := active },
     Except.ok ("Disconnected from '" ++ connection_id ++ "'"))

/-- `CDPConnectionManager.disconnect_all` (server.py lines 294-299). -/
def CDPConnectionManager.disconnect_all (_m : CDPConnectionManager) :
    CDPConnectionManager :=
  { connections := [], active_connection_id := none }

/-- `CDPConnectionManager.get_active` (server.py lines 301-305). -/
def CDPConnectionManager.get_active (m : CDPConnectionManager) :
    Option CDPClient :=
  match m.active_connection_id with
  | some a => lookupKey m.connections a
  | none => none

/-- `CDPConnectionManager.get` (server.py lines 307-309). -/
def CDPConnectionManager.get (m : CDPConnectionManager)
    (connection_id : String) : Option CDPClient :=
  lookupKey m.connections connection_id

/-- `CDPConnectionManager.switch_active` (server.py lines 311-317). -/
def CDPConnectionManager.switch_active (m : CDPConnectionManager)
    (connection_id : String) : CDPConnectionManager × Except String String :=
  if hasKey m.connections connection_id = false then
    (m, Except.error ("Error: Connection '" ++ connection_id ++ "' not found"))
  else
    ({ m with active_connection_id := some connection_id },
     Except.ok ("Switched to connection '" ++ connection_id ++ "'"))

/-- `CDPConnectionManager.get_connection` (server.py lines 330-342): the
named client, or the active one when no id is given. -/
def CDPConnectionManager.get_connection (m : CDPConnectionManager)
    (connection_id : Option String) : Option CDPClient :=
  match connection_id with
  | none => m.get_active
  | some cid => m.get cid

/-- The registry invariant: a non-null `active_connection_id` is a key
currently present in `connections`. -/
def mgrInv (m : CDPConnectionManager) : Prop :=
  ∀ a, m.active_connection_id = some a → hasKey m.connections a = true

/-- The `if not cdp.paused_data` test of the debugger tools: the pause
snapshot counts as present exactly when `paused_data` is set to a truthy
value (a non-None, non-empty params object). -/
def CDPClient.pausedTruthy (st : CDPClient) : Bool :=
  match st.paused_data with
  | none => false
  | some p => p.truthy

/-- What a debugger tool call does after resolving its connection: report
that no connection resolved, return an error string without issuing any
remote command, or issue one remote command with the given payload. -/
inductive ToolAction where
  | noConnection (msg : String)
  | errorReturn (msg : String)
  | sendsCommand (method : String) (params : Json)

/-- Decision core of the `debugger_step_over` tool (server.py lines
1655-1684): resolve the connection; if `paused_data` is falsy return the
not-paused error without sending anything; else send `Debugger.stepOver`. -/
def debugger_step_over (mgr : CDPConnectionManager)
    (connection_id : Option String) : ToolAction :=
  match mgr.get_connection connection_id with
  | none => ToolAction.noConnection
      "Error: No Chrome connection found. Use chrome_connect() or chrome_launch() first."
  | some cdp =>
      if cdp.pausedTruthy = false then
        ToolAction.errorReturn "Not paused. Cannot step when execution is not paused."
      else
        ToolAction.sendsCommand "Debugger.stepOver" (Json.obj [])

/-- Decision core of `debugger_step_into` (server.py lines 1687-1716). -/
def debugger_step_into (mgr : CDPConnectionManager)
    (connection_id : Option String) : ToolAction :=
  match mgr.get_connection connection_id with
  | none => ToolAction.noConnection
      "Error: No Chrome connection found. Use chrome_connect() or chrome_launch() first."
  | some cdp =>
      if cdp.pausedTruthy = false then
        ToolAction.errorReturn "Not paused. Cannot step when execution is not paused."
      else
        ToolAction.sendsCommand "Debugger.stepInto" (Json.obj [])

/-- Decision core of `debugger_step_out` (server.py lines 1719-1748). -/
def debugger_step_out (mgr : CDPConnectionManager)
    (connection_id : Option String) : ToolAction :=
  match mgr.get_connection connection_id with
  | none => ToolAction.noConnection
      "Error: No Chrome connection found. Use chrome_connect() or chrome_launch() first."
  | some cdp =>
      if cdp.pausedTruthy = false then
        ToolAction.errorReturn "Not paused. Cannot step when execution is not paused."
      else
        ToolAction.sendsCommand "Debugger.stepOut" (Json.obj [])

/-- Decision core of `debugger_resume` (server.py lines 1751-1778). -/
def debugger_resume (mgr : CDPConnectionManager)
    (connection_id : Option String) : ToolAction :=
  match mgr.get_connection connection_id with
  | none => ToolAction.noConnection
      "Error: No Chrome connection found. Use chrome_connect() or chrome_launch() first."
  | some cdp =>
      if cdp.pausedTruthy = false then
        ToolAction.errorReturn "Not paused. Nothing to resume."
      else
        ToolAction.sendsCommand "Debugger.resume" (Json.obj [])

/-- Decision core of `debugger_evaluate_on_call_frame` (server.py lines
1583-1627): requires a paused context, then sends
`Debugger.evaluateOnCallFrame` with the frame id and expression. -/
def debugger_evaluate_on_call_frame (mgr : CDPConnectionManager)
    (call_frame_id : String) (expression : String)
    (connection_id : Option String) : ToolAction :=
  match mgr.get_connection connection_id with
  | none => ToolAction.noConnection
      "Error: No Chrome connection found. Use chrome_connect() or chrome_launch() first."
  | some cdp =>
      if cdp.pausedTruthy = false then
        ToolAction.errorReturn "Not paused. Cannot evaluate expressions outside of paused context."
      else
        ToolAction.sendsCommand "Debugger.evaluateOnCallFrame"
          (Json.obj [("callFrameId", Json.str call_frame_id),
                     ("expression", Json.str expression)])

/-- The wire params built by `debugger_set_breakpoint` (server.py lines
1477-1484): the caller-facing 1-indexed `line_number` goes on the wire as
`line_number - 1`; a falsy condition (None or "") adds no condition field. -/
def debugger_set_breakpoint_params (url : String) (line_number : Int)
    (column_number : Int) (condition : Option String) : List (String × Json) :=
  [("url", Json.str url),
   ("lineNumber", Json.num (line_number - 1)),
   ("columnNumber", Json.num column_number)] ++
  (match condition with
   | some c => if c.isEmpty then [] else [("condition", Json.str c)]
   | none => [])

/-- The 1-indexed line reported for a remote-confirmed location (server.py
line 1506): `loc.get("lineNumber", 0) + 1`. A present but non-numeric
lineNumber would raise a TypeError in the source; the model returns the
missing-key default there. -/
def reported_actual_line (loc : List (String × Json)) : Int :=
  (match lookupKey loc "lineNumber" with
   | some (Json.num n) => n
   | _ => 0) + 1

/-! ## Association-list lemmas -/

theorem lookupKey_append {α β : Type} [DecidableEq α] (l1 l2 : List (α × β))
    (k : α) :
    lookupKey (l1 ++ l2) k =
      match lookupKey l1 k with
      | some v => some v
      | none => lookupKey l2 k := by
  induction l1 with
  | nil => simp [lookupKey]
  | cons kv rest ih =>
      obtain ⟨k1, v1⟩ := kv
      by_cases h : k1 = k <;> simp [lookupKey, h, ih]

theorem lookup_eraseKey_self {α β : Type} [DecidableEq α]
    (l : List (α × β)) (k : α) : lookupKey (eraseKey l k) k = none := by
  induction l with
  | nil => simp [eraseKey, lookupKey]
  | cons kv rest ih =>
      obtain ⟨k1, v1⟩ := kv
      by_cases h : k1 = k <;> simp [eraseKey, lookupKey, h, ih]

theorem lookup_eraseKey_other {α β : Type} [DecidableEq α]
    (l : List (α × β)) (k m : α) (h : m ≠ k) :
    lookupKey (eraseKey l k) m = lookupKey l m := by
  induction l with
  | nil => simp [eraseKey]
  | cons kv rest ih =>
      obtain ⟨k1, v1⟩ := kv
      by_cases h1 : k1 = k
      · subst h1
        simp [eraseKey, lookupKey, Ne.symm h, ih]
      · by_cases h2 : k1 = m <;> simp [eraseKey, lookupKey, h1, h2, h, ih]

theorem resolveKey_cons (k1 : Int) (v1 : FutureState)
    (rest : List (Int × FutureState)) (n : Int) (d : List (String × Json)) :
    resolveKey ((k1, v1) :: rest) n d =
      (if k1 = n then (k1, FutureState.result d) else (k1, v1)) ::
        resolveKey rest n d := by
  by_cases h : k1 = n <;> simp [resolveKey, h]

theorem lookup_resolveKey_self (l : List (Int × FutureState)) (n : Int)
    (d : List (String × Json)) (fs : FutureState)
    (h : lookupKey l n = some fs) :
    lookupKey (resolveKey l n d) n = some (FutureState.result d) := by
  induction l with
  | nil => simp [lookupKey] at h
  | cons kv rest ih =>
      obtain ⟨k1, v1⟩ := kv
      rw [resolveKey_cons]
      by_cases h1 : k1 = n
      · rw [if_pos h1]
        simp [lookupKey, h1]
      · rw [if_neg h1]
        simp [lookupKey, h1] at h
        simp [lookupKey, h1]
        exact ih h

theorem lookup_resolveKey_other (l : List (Int × FutureState)) (n m : Int)
    (d : List (String × Json)) (h : m ≠ n) :
    lookupKey (resolveKey l n d) m = lookupKey l m := by
  induction l with
  | nil => simp [resolveKey, lookupKey]
  | cons kv rest ih =>
      obtain ⟨k1, v1⟩ := kv
      rw [resolveKey_cons]
      by_cases h1 : k1 = n
      · rw [if_pos h1]
        subst h1
        simp [lookupKey, Ne.symm h, ih]
      · rw [if_neg h1]
        by_cases h2 : k1 = m <;> simp [lookupKey, h1, h2, ih]

theorem firstKey_hasKey {α β : Type} [DecidableEq α] (l : List (α × β))
    (k : α) (h : firstKey l = some k) : hasKey l k = true := by
  cases l with
  | nil => simp [firstKey] at h
  | cons kv rest =>
      obtain ⟨k1, v1⟩ := kv
      simp [firstKey] at h
      subst h
      simp [hasKey, lookupKey]

theorem lookupKey_mem_keys {α β : Type} [DecidableEq α]
    (l : List (α × β)) (k : α) (v : β) (h : lookupKey l k = some v) :
    k ∈ l.map Prod.fst := by
  induction l with
  | nil => simp [lookupKey] at h
  | cons kv rest ih =>
      obtain ⟨k1, v1⟩ := kv
      by_cases h1 : k1 = k
      · subst h1; simp
      · simp [lookupKey, h1] at h
        simp [ih h]

/-! ## Concrete states used by counterexamples and witnesses -/

/-- A connected client with one in-flight request (id 1, future still
unresolved) and the counter at 1. -/
def pendingClient : CDPClient :=
  { ws_connected := true
    ws_open := true
    receive_task := some true
    msg_id := 1
    pending_responses := [(1, FutureState.unresolved)]
    paused_data := none
    event_handlers := []
    breakpoints := [] }

/-- `pendingClient` with a user handler for "Custom.event" that raises on
every invocation. -/
def raisingHandlerClient : CDPClient :=
  { pendingClient with event_handlers := [("Custom.event", fun _ => true)] }

/-- `pendingClient` with a non-empty pause snapshot. -/
def pausedClient : CDPClient :=
  { pendingClient with
      paused_data := some (Json.obj [("reason", Json.str "breakpoint")]) }

/-- A registry holding `pausedClient` under id "a", which is active. -/
def pausedMgr : CDPConnectionManager :=
  { connections := [("a", pausedClient)], active_connection_id := some "a" }

/-! ## C10 — send_command with no open connection -/

/-- Claim C10: calling `send_command` on a client whose `ws` is `None`
fails with the "Not connected to Chrome CDP" error before any state
mutation: the returned state is the input state unchanged (`msg_id` not
incremented, no entry added to `pending_responses`) and no frame is
written to any transport. -/
theorem send_command_not_connected (st : CDPClient) (method : String)
    (params : Option Json) (h : st.ws_connected = false) :
    st.send_command_issue method params =
      (st, [], Except.error "Not connected to Chrome CDP") := by
  simp [CDPClient.send_command_issue, h]

/-- Witness for C10 at a concrete disconnected client. -/
theorem send_command_not_connected_witness :
    CDPClient.init.ws_connected = false ∧
    CDPClient.init.send_command_issue "Debugger.enable" none =
      (CDPClient.init, [], Except.error "Not connected to Chrome CDP") :=
  ⟨rfl, send_command_not_connected CDPClient.init "Debugger.enable" none rfl⟩

/-! ## C2 — disconnect does not fail pending requests -/

/-- Counterexample to claim C2: on a client with one pending request,
`disconnect` leaves that request's future exactly as it was — still
unresolved, not failed with a "connection closed" error (not failed with
any error at all). The request is left to hit its own timeout. -/
theorem disconnect_pending_not_failed_cex :
    lookupKey (CDPClient.disconnect pendingClient).pending_responses 1 =
      some FutureState.unresolved := by
  rfl

/-- Claim C2 as amended: `disconnect` is idempotent, cancels the receive
loop, and closes the connection, but it does NOT resolve the entries of
`pending_responses` with a "connection closed" error: the pending table is
left untouched and pending requests are left to hit their own timeouts. -/
theorem disconnect_idempotent_pending_untouched (st : CDPClient) :
    st.disconnect.disconnect = st.disconnect ∧
    (st.receive_task.isSome → st.disconnect.receive_task = some false) ∧
    (st.ws_connected = true → st.disconnect.ws_open = false) ∧
    st.disconnect.pending_responses = st.pending_responses ∧
    st.disconnect.ws_connected = st.ws_connected ∧
    st.disconnect.msg_id = st.msg_id ∧
    st.disconnect.paused_data = st.paused_data := by
  obtain ⟨wsc, wso, rt, mid, pend, pd, eh, bp⟩ := st
  cases rt <;> cases wsc <;> simp [CDPClient.disconnect]

/-- Witness for the amended C2 at a concrete connected client. -/
theorem disconnect_idempotent_pending_untouched_witness :
    pendingClient.disconnect.disconnect = pendingClient.disconnect ∧
    pendingClient.disconnect.receive_task = some false ∧
    pendingClient.disconnect.ws_open = false ∧
    pendingClient.disconnect.pending_responses = pendingClient.pending_responses :=
  ⟨(disconnect_idempotent_pending_untouched pendingClient).1,
   (disconnect_idempotent_pending_untouched pendingClient).2.1 rfl,
   (disconnect_idempotent_pending_untouched pendingClient).2.2.1 rfl,
   (disconnect_idempotent_pending_untouched pendingClient).2.2.2.1⟩

/-! ## C3 — a malformed frame terminates the receive loop -/

/-- Counterexample to claim C3: a frame whose payload is not decodable JSON
does NOT leave the loop processing subsequent frames — `json.loads` raises,
the exception is caught by the loop's outer `except Exception` clause, and
the loop terminates. The well-formed response for pending id 1 queued right
behind the malformed frame is never processed: the state comes back
unchanged (id 1 still unresolved) with the loop ended by the caught error. -/
theorem receive_loop_bad_frame_cex :
    pendingClient.receiveLoop
        [RawFrame.bad, RawFrame.frame [("id", Json.num 1), ("result", Json.obj [])]] =
      (pendingClient, LoopEnd.errorCaught) := by
  rfl

/-- Claim C3 as amended: the two malformed-payload cases behave
differently, and neither is reported-and-survived. A payload `json.loads`
cannot decode raises — the exception is caught at the loop boundary (logged
only in DEBUG mode) and the receive loop TERMINATES, leaving all subsequent
frames unprocessed. A payload that decodes but carries neither an `id` nor
a `method` field falls through both branches of the dispatch: it is skipped
silently (no logging) and the loop continues with subsequent frames. -/
theorem receive_loop_malformed_frames (st : CDPClient) (rest : List RawFrame)
    (d : List (String × Json)) (hid : lookupKey d "id" = none)
    (hm : lookupKey d "method" = none) :
    st.receiveLoop (RawFrame.bad :: rest) = (st, LoopEnd.errorCaught) ∧
    st.receiveLoop (RawFrame.frame d :: rest) = st.receiveLoop rest := by
  constructor
  · rfl
  · simp [CDPClient.receiveLoop, CDPClient.processFrame, hid, hm]

/-- Witness for the amended C3 at a concrete client and frame. -/
theorem receive_loop_malformed_frames_witness :
    lookupKey [("foo", Json.null)] "id" = none ∧
    lookupKey [("foo", Json.null)] "method" = none ∧
    (pendingClient.receiveLoop [RawFrame.bad] = (pendingClient, LoopEnd.errorCaught) ∧
     pendingClient.receiveLoop [RawFrame.frame [("foo", Json.null)]] =
       pendingClient.receiveLoop []) :=
  ⟨rfl, rfl, receive_loop_malformed_frames pendingClient [] [("foo", Json.null)] rfl rfl⟩

/-! ## C4 — a failing event handler terminates the receive loop -/

/-- Counterexample to claim C4: with a user handler registered for
"Custom.event" that raises, delivering that event terminates the receive
loop (the handler's exception propagates out of `_handle_event` into the
loop body and is caught by the outer `except Exception` clause). The
response frame for pending id 1 queued behind the event is never read: the
state comes back with id 1 still unresolved and the loop ended. -/
theorem handler_exception_cex :
    raisingHandlerClient.receiveLoop
        [RawFrame.frame [("method", Json.str "Custom.event")],
         RawFrame.frame [("id", Json.num 1), ("result", Json.obj [])]] =
      (raisingHandlerClient, LoopEnd.errorCaught) := by
  rfl

/-- Claim C4 as amended: a failure raised inside the user-registered event
handler for a delivered event is NOT isolated from the read path — it
propagates out of `_handle_event`, the receive loop catches it at the loop
boundary and terminates, and subsequent frames are not processed. (The
built-in pause/resume update applied before the handler does persist.) -/
theorem handler_exception_terminates_loop (st : CDPClient)
    (event : List (String × Json)) (m : String) (h : Json → Bool)
    (rest : List RawFrame)
    (hid : lookupKey event "id" = none)
    (hm : lookupKey event "method" = some (Json.str m))
    (hh : lookupKey st.event_handlers m = some h)
    (hraise : h ((lookupKey event "params").getD (Json.obj [])) = true) :
    st.receiveLoop (RawFrame.frame event :: rest) =
      ((st.handle_event event).1, LoopEnd.errorCaught) := by
  have hhandlers : ∀ p : Json,
      (builtinUpdate st (Json.str m) p).event_handlers = st.event_handlers := by
    intro p
    unfold builtinUpdate
    split <;> try rfl
    split <;> rfl
  have hev : st.handle_event event = ((st.handle_event event).1, true) := by
    unfold CDPClient.handle_event
    rw [hm]
    simp only [Option.getD_some, handlerFor, hhandlers, hh, hraise]
  simp [CDPClient.receiveLoop, CDPClient.processFrame, hid, hm]
  rw [hev]

/-! ## C5 — timeout is local to its own request -/

/-- Claim C5: when a `send_command` call times out, exactly its own entry
is removed from `pending_responses` and only that call fails with the
timeout error — every other pending entry, the connection fields, the
receive task, the counter, the snapshot and the handler table are
unchanged — and a response bearing the timed-out id arriving afterwards
mutates no state: `processFrame` returns the post-timeout state unchanged
because the id is no longer in `pending_responses`. -/
theorem send_command_timeout_local (st : CDPClient) (msgId : Int)
    (method : String) :
    (st.send_command_timeout msgId method).2 =
      Except.error ("CDP command timeout: " ++ method) ∧
    lookupKey (st.send_command_timeout msgId method).1.pending_responses msgId = none ∧
    (∀ m, m ≠ msgId →
      lookupKey (st.send_command_timeout msgId method).1.pending_responses m =
        lookupKey st.pending_responses m) ∧
    (st.send_command_timeout msgId method).1.ws_connected = st.ws_connected ∧
    (st.send_command_timeout msgId method).1.ws_open = st.ws_open ∧
    (st.send_command_timeout msgId method).1.receive_task = st.receive_task ∧
    (st.send_command_timeout msgId method).1.msg_id = st.msg_id ∧
    (st.send_command_timeout msgId method).1.paused_data = st.paused_data ∧
    (st.send_command_timeout msgId method).1.event_handlers = st.event_handlers ∧
    (∀ d, lookupKey d "id" = some (Json.num msgId) →
      (st.send_command_timeout msgId method).1.processFrame d =
        ((st.send_command_timeout msgId method).1, false)) := by
  refine ⟨rfl, ?_, ?_, rfl, rfl, rfl, rfl, rfl, rfl, ?_⟩
  · simp [CDPClient.send_command_timeout, lookup_eraseKey_self]
  · intro m hm
    simp [CDPClient.send_command_timeout, lookup_eraseKey_other _ _ _ hm]
  · intro d hd
    simp [CDPClient.processFrame, hd, Json.asInt,
          CDPClient.send_command_timeout, lookup_eraseKey_self]

/-- Witness for C5 at a concrete client: the timeout of request 1 removes
its entry, leaves the (absent) entry 2 as it was, and a late response with
id 1 is a no-op on the post-timeout state. -/
theorem send_command_timeout_local_witness :
    (pendingClient.send_command_timeout 1 "Page.enable").2 =
      Except.error ("CDP command timeout: " ++ "Page.enable") ∧
    lookupKey (pendingClient.send_command_timeout 1 "Page.enable").1.pending_responses 2 =
      lookupKey pendingClient.pending_responses 2 ∧
    (pendingClient.send_command_timeout 1 "Page.enable").1.processFrame
        [("id", Json.num 1), ("result", Json.obj [])] =
      ((pendingClient.send_command_timeout 1 "Page.enable").1, false) :=
  ⟨(send_command_timeout_local pendingClient 1 "Page.enable").1,
   (send_command_timeout_local pendingClient 1 "Page.enable").2.2.1 2 (by decide),
   (send_command_timeout_local pendingClient 1 "Page.enable").2.2.2.2.2.2.2.2.2
     [("id", Json.num 1), ("result", Json.obj [])] rfl⟩

/-! ## C6 — stepping and evaluate-on-frame require a pause snapshot -/

/-- Claim C6: for each of resume, step-over, step-into, step-out and
evaluate-on-call-frame, when the resolved session's pause snapshot is empty
(`paused_data` falsy: `None` or `{}` — the `if not cdp.paused_data` test)
the operation returns its "not paused" failure without issuing any remote
command, and when the snapshot is non-empty it issues the corresponding
remote command. -/
theorem stepping_requires_pause (mgr : CDPConnectionManager)
    (cid : Option String) (cdp : CDPClient) (fid expr : String)
    (hres : mgr.get_connection cid = some cdp) :
    (cdp.pausedTruthy = false →
      debugger_step_over mgr cid =
        ToolAction.errorReturn "Not paused. Cannot step when execution is not paused." ∧
      debugger_step_into mgr cid =
        ToolAction.errorReturn "Not paused. Cannot step when execution is not paused." ∧
      debugger_step_out mgr cid =
        ToolAction.errorReturn "Not paused. Cannot step when execution is not paused." ∧
      debugger_resume mgr cid =
        ToolAction.errorReturn "Not paused. Nothing to resume." ∧
      debugger_evaluate_on_call_frame mgr fid expr cid =
        ToolAction.errorReturn "Not paused. Cannot evaluate expressions outside of paused context.") ∧
    (cdp.pausedTruthy = true →
      debugger_step_over mgr cid = ToolAction.sendsCommand "Debugger.stepOver" (Json.obj []) ∧
      debugger_step_into mgr cid = ToolAction.sendsCommand "Debugger.stepInto" (Json.obj []) ∧
      debugger_step_out mgr cid = ToolAction.sendsCommand "Debugger.stepOut" (Json.obj []) ∧
      debugger_resume mgr cid = ToolAction.sendsCommand "Debugger.resume" (Json.obj []) ∧
      debugger_evaluate_on_call_frame mgr fid expr cid =
        ToolAction.sendsCommand "Debugger.evaluateOnCallFrame"
          (Json.obj [("callFrameId", Json.str fid), ("expression", Json.str expr)])) := by
  constructor <;> intro hp <;>
    simp [debugger_step_over, debugger_step_into, debugger_step_out,
          debugger_resume, debugger_evaluate_on_call_frame, hres, hp]

/-- Witness for C6 at a concrete registry whose active session is paused. -/
theorem stepping_requires_pause_witness :
    pausedMgr.get_connection none = some pausedClient ∧
    (pausedClient.pausedTruthy = true →
      debugger_step_over pausedMgr none = ToolAction.sendsCommand "Debugger.stepOver" (Json.obj []) ∧
      debugger_step_into pausedMgr none = ToolAction.sendsCommand "Debugger.stepInto" (Json.obj []) ∧
      debugger_step_out pausedMgr none = ToolAction.sendsCommand "Debugger.stepOut" (Json.obj []) ∧
      debugger_resume pausedMgr none = ToolAction.sendsCommand "Debugger.resume" (Json.obj []) ∧
      debugger_evaluate_on_call_frame pausedMgr "f0" "1+1" none =
        ToolAction.sendsCommand "Debugger.evaluateOnCallFrame"
          (Json.obj [("callFrameId", Json.str "f0"), ("expression", Json.str "1+1")])) :=
  ⟨rfl, (stepping_requires_pause pausedMgr none pausedClient "f0" "1+1" rfl).2⟩

/-! ## C7 — built-in pause/resume tracking -/

/-- Counterexample to claim C7: a delivered `Debugger.paused` event whose
params object is empty sets `paused_data` to that empty object, after which
the snapshot is EMPTY by the program's own presence test (`pausedTruthy` is
the `if not cdp.paused_data` check every stepping/evaluation operation
uses): the claim's "non-empty afterwards" fails for this event. -/
theorem pause_event_empty_params_cex :
    ((pendingClient.handle_event
        [("method", Json.str "Debugger.paused"), ("params", Json.obj [])]).1).paused_data
      = some (Json.obj []) ∧
    ((pendingClient.handle_event
        [("method", Json.str "Debugger.paused"), ("params", Json.obj [])]).1).pausedTruthy
      = false := by
  exact ⟨rfl, rfl⟩

/-- Claim C7 as amended: built-in event handling maintains the pause
snapshot — a delivered `Debugger.paused` event sets `paused_data` to that
event's params (hence the snapshot is non-empty afterwards whenever the
event's params value is non-empty/truthy, but NOT for an empty params
object), a delivered `Debugger.resumed` event clears `paused_data` — and
the built-in handling runs before any user-registered handler: the
resulting state is exactly the built-in update, whatever the user handler
does (even when it raises). -/
theorem builtin_pause_resume_tracking (st : CDPClient)
    (event : List (String × Json)) :
    ((st.handle_event event).1 =
        builtinUpdate st ((lookupKey event "method").getD Json.null)
          ((lookupKey event "params").getD (Json.obj []))) ∧
    (∀ p, lookupKey event "method" = some (Json.str "Debugger.paused") →
      (lookupKey event "params").getD (Json.obj []) = p →
      ((st.handle_event event).1.paused_data = some p ∧
       (p.truthy = true → (st.handle_event event).1.pausedTruthy = true))) ∧
    (lookupKey event "method" = some (Json.str "Debugger.resumed") →
      (st.handle_event event).1.paused_data = none) := by
  have hfst : (st.handle_event event).1 =
      builtinUpdate st ((lookupKey event "method").getD Json.null)
        ((lookupKey event "params").getD (Json.obj [])) := by
    simp only [CDPClient.handle_event]
    split <;> rfl
  refine ⟨hfst, ?_, ?_⟩
  · intro p hm hp
    rw [hfst, hm] at *
    rw [hp]
    constructor
    · simp [builtinUpdate, Json.isStr]
    · intro ht
      simp [builtinUpdate, Json.isStr, CDPClient.pausedTruthy, ht]
  · intro hm
    rw [hfst, hm]
    simp [builtinUpdate, Json.isStr]

/-- Witness for the amended C7 at concrete pause and resume events. -/
theorem builtin_pause_resume_tracking_witness :
    ((pendingClient.handle_event
        [("method", Json.str "Debugger.paused"),
         ("params", Json.obj [("reason", Json.str "breakpoint")])]).1.paused_data =
      some (Json.obj [("reason", Json.str "breakpoint")])) ∧
    ((pausedClient.handle_event
        [("method", Json.str "Debugger.resumed")]).1.paused_data = none) :=
  ⟨((builtin_pause_resume_tracking pendingClient
      [("method", Json.str "Debugger.paused"),
       ("params", Json.obj [("reason", Json.str "breakpoint")])]).2.1
      (Json.obj [("reason", Json.str "breakpoint")]) rfl rfl).1,
   (builtin_pause_resume_tracking pausedClient
      [("method", Json.str "Debugger.resumed")]).2.2 rfl⟩

/-! ## C8 — breakpoint line numbers round-trip -/

/-- Claim C8: `debugger_set_breakpoint` with 1-indexed line N sends
`lineNumber` N-1 on the wire, and converts a remote-confirmed 0-indexed
location back by adding 1 when reporting it — so when the remote confirms
the location as sent, the confirmation reports line N (and in general it
reports the remote-adjusted 0-indexed line plus one). -/
theorem breakpoint_line_round_trip (url : String) (n col : Int)
    (cond : Option String) (loc : List (String × Json)) (m : Int)
    (hloc : lookupKey loc "lineNumber" = some (Json.num m)) :
    lookupKey (debugger_set_breakpoint_params url n col cond) "lineNumber" =
      some (Json.num (n - 1)) ∧
    reported_actual_line loc = m + 1 ∧
    reported_actual_line
        [("lineNumber", Json.num (n - 1)), ("columnNumber", Json.num col)] = n := by
  refine ⟨?_, ?_, ?_⟩
  · simp [debugger_set_breakpoint_params, lookupKey]
  · simp [reported_actual_line, hloc]
  · simp [reported_actual_line, lookupKey]

/-- Witness for C8: line 42 goes on the wire as 41 and is reported back
as 42 when the remote confirms it unchanged. -/
theorem breakpoint_line_round_trip_witness :
    lookupKey [("lineNumber", Json.num 41), ("columnNumber", Json.num 0)]
        "lineNumber" = some (Json.num 41) ∧
    (lookupKey (debugger_set_breakpoint_params "app.js" 42 0 none) "lineNumber" =
        some (Json.num (42 - 1)) ∧
     reported_actual_line [("lineNumber", Json.num 41), ("columnNumber", Json.num 0)] =
        41 + 1 ∧
     reported_actual_line
        [("lineNumber", Json.num (42 - 1)), ("columnNumber", Json.num 0)] = 42) :=
  ⟨rfl, breakpoint_line_round_trip "app.js" 42 0 none
      [("lineNumber", Json.num 41), ("columnNumber", Json.num 0)] 41 rfl⟩

/-! ## C9 — registry active-id invariant -/

theorem hasKey_append_right {α β : Type} [DecidableEq α]
    (l : List (α × β)) (k : α) (v : β) :
    hasKey (l ++ [(k, v)]) k = true := by
  rw [hasKey, lookupKey_append]
  cases h : lookupKey l k <;> simp [lookupKey]

theorem hasKey_append_left {α β : Type} [DecidableEq α]
    (l l2 : List (α × β)) (a : α) (h : hasKey l a = true) :
    hasKey (l ++ l2) a = true := by
  rw [hasKey, lookupKey_append]
  rw [hasKey] at h
  cases hl : lookupKey l a
  · rw [hl] at h; simp at h
  · simp

theorem mgrInv_connect (m : CDPConnectionManager) (hm : mgrInv m)
    (cid : String) (cdp : CDPClient) (ok : Bool) :
    mgrInv (m.connect cid cdp ok).1 := by
  unfold CDPConnectionManager.connect
  by_cases h1 : hasKey m.connections cid
  · simp [h1]; exact hm
  · by_cases h2 : ok = false
    · simp [h1, h2]; exact hm
    · by_cases h3 : m.active_connection_id = none
      · simp [h1, h2, h3]
        intro a ha
        dsimp only at ha
        rw [Option.some_inj] at ha
        subst ha
        exact hasKey_append_right m.connections cid cdp
      · simp [h1, h2, h3]
        intro a ha
        exact hasKey_append_left _ _ _ (hm a ha)

theorem mgrInv_disconnect (m : CDPConnectionManager) (hm : mgrInv m)
    (cid : String) : mgrInv (m.disconnect cid).1 := by
  unfold CDPConnectionManager.disconnect
  by_cases h1 : hasKey m.connections cid = false
  · simp [h1]; exact hm
  · simp [h1]
    intro a ha
    by_cases h2 : m.active_connection_id = some cid
    · simp [h2] at ha
      exact firstKey_hasKey _ _ ha
    · simp [h2] at ha
      have hka := hm a ha
      have hne : a ≠ cid := by
        intro he
        subst he
        exact h2 ha
      rw [hasKey, lookup_eraseKey_other _ _ _ hne]
      exact hka

theorem mgrInv_switch_active (m : CDPConnectionManager) (hm : mgrInv m)
    (cid : String) : mgrInv (m.switch_active cid).1 := by
  unfold CDPConnectionManager.switch_active
  by_cases h1 : hasKey m.connections cid = false
  · simp [h1]; exact hm
  · simp [h1]
    intro a ha
    dsimp only at ha
    rw [Option.some_inj] at ha
    subst ha
    simpa using h1

theorem disconnect_active_reassigns (m : CDPConnectionManager)
    (hm : mgrInv m) (cid : String) (ha : m.active_connection_id = some cid) :
    ((m.disconnect cid).1.connections = [] →
      (m.disconnect cid).1.active_connection_id = none) ∧
    ((m.disconnect cid).1.connections ≠ [] →
      ∃ k, (m.disconnect cid).1.active_connection_id = some k ∧
        hasKey (m.disconnect cid).1.connections k = true) := by
  have h1 : hasKey m.connections cid = true := hm cid ha
  unfold CDPConnectionManager.disconnect
  simp [h1, ha]
  constructor
  · intro he
    simp [he, firstKey]
  · intro hne
    cases hc : eraseKey m.connections cid with
    | nil => exact absurd hc hne
    | cons kv rest =>
        obtain ⟨k1, v1⟩ := kv
        refine ⟨k1, ?_, ?_⟩
        · simp [hc, firstKey]
        · simp [hasKey, lookupKey]

theorem registry_two_session_scenario (a b : String) (ca cb : CDPClient)
    (hab : a ≠ b) :
    ((CDPConnectionManager.init.connect a ca true).1.connect b cb true).1.active_connection_id
        = some a ∧
    ((((CDPConnectionManager.init.connect a ca true).1.connect b cb true).1.disconnect a).1.active_connection_id
        = some b) := by
  simp [CDPConnectionManager.init, CDPConnectionManager.connect,
        CDPConnectionManager.disconnect, hasKey, lookupKey, eraseKey,
        firstKey, hab, Ne.symm hab]

theorem registry_disconnect_last (a : String) (ca : CDPClient) :
    ((CDPConnectionManager.init.connect a ca true).1.disconnect a).1.get_connection none
      = none := by
  simp [CDPConnectionManager.init, CDPConnectionManager.connect,
        CDPConnectionManager.disconnect, CDPConnectionManager.get_connection,
        CDPConnectionManager.get_active, hasKey, lookupKey, eraseKey, firstKey]

/-- Claim C9: every registry operation (connect, disconnect,
disconnect_all, switch_active) preserves the invariant that a non-null
`active_connection_id` is a key currently present in `connections`;
disconnecting the session `active_connection_id` refers to reassigns it to
some remaining key, or to none when the map becomes empty. In particular,
after connecting two sessions and disconnecting the active one the other is
active, and after disconnecting the last session resolving with no id
yields nothing. -/
theorem registry_active_invariant (m : CDPConnectionManager) (hm : mgrInv m) :
    (∀ cid cdp ok, mgrInv (m.connect cid cdp ok).1) ∧
    (∀ cid, mgrInv (m.disconnect cid).1) ∧
    mgrInv m.disconnect_all ∧
    (∀ cid, mgrInv (m.switch_active cid).1) ∧
    (∀ cid, m.active_connection_id = some cid →
      ((m.disconnect cid).1.connections = [] →
        (m.disconnect cid).1.active_connection_id = none) ∧
      ((m.disconnect cid).1.connections ≠ [] →
        ∃ k, (m.disconnect cid).1.active_connection_id = some k ∧
          hasKey (m.disconnect cid).1.connections k = true)) ∧
    (∀ a b ca cb, a ≠ b →
      ((CDPConnectionManager.init.connect a ca true).1.connect b cb true).1.active_connection_id
          = some a ∧
      ((((CDPConnectionManager.init.connect a ca true).1.connect b cb true).1.disconnect a).1.active_connection_id
          = some b)) ∧
    (∀ a ca,
      ((CDPConnectionManager.init.connect a ca true).1.disconnect a).1.get_connection none
        = none) := by
  refine ⟨fun cid cdp ok => mgrInv_connect m hm cid cdp ok,
          fun cid => mgrInv_disconnect m hm cid,
          ?_,
          fun cid => mgrInv_switch_active m hm cid,
          fun cid ha => disconnect_active_reassigns m hm cid ha,
          fun a b ca cb hab => registry_two_session_scenario a b ca cb hab,
          fun a ca => registry_disconnect_last a ca⟩
  intro a ha
  simp [CDPConnectionManager.disconnect_all] at ha

/-- Witness for C9 at the empty registry: the invariant holds there, and
the concrete two-session scenario with ids "a" and "b" behaves as stated. -/
theorem registry_active_invariant_witness :
    mgrInv CDPConnectionManager.init ∧
    (((CDPConnectionManager.init.connect "a" CDPClient.init true).1.connect "b" CDPClient.init true).1.active_connection_id
        = some "a" ∧
     ((((CDPConnectionManager.init.connect "a" CDPClient.init true).1.connect "b" CDPClient.init true).1.disconnect "a").1.active_connection_id
        = some "b")) :=
  have hinv : mgrInv CDPConnectionManager.init := fun a h => Option.noConfusion h
  ⟨hinv,
   (registry_active_invariant CDPConnectionManager.init hinv).2.2.2.2.2.1
     "a" "b" CDPClient.init CDPClient.init (by decide)⟩

/-! ## C1 — response correlation by request id -/

/-- The request id a frame carries, if it is a decodable response frame
with an integer id. -/
def frameId : RawFrame → Option Int
  | RawFrame.bad => none
  | RawFrame.frame d =>
      match lookupKey d "id" with
      | some v => v.asInt
      | none => none

theorem frameId_frame_iff (d : List (String × Json)) (n : Int) :
    frameId (RawFrame.frame d) = some n ↔
      lookupKey d "id" = some (Json.num n) := by
  have hstep : frameId (RawFrame.frame d) =
      match lookupKey d "id" with
      | some v => v.asInt
      | none => none := rfl
  rw [hstep]
  cases h : lookupKey d "id" with
  | none => simp
  | some v => cases v <;> simp [Json.asInt]

theorem processFrame_resolves (st : CDPClient) (d : List (String × Json))
    (n : Int) (hid : lookupKey d "id" = some (Json.num n))
    (hp : lookupKey st.pending_responses n = some FutureState.unresolved) :
    st.processFrame d =
      ({ st with pending_responses := resolveKey st.pending_responses n d },
       false) := by
  unfold CDPClient.processFrame
  rw [hid]
  simp [Json.asInt, hp]

theorem processFrame_unknown_id (st : CDPClient) (d : List (String × Json))
    (n : Int) (hid : lookupKey d "id" = some (Json.num n))
    (hp : lookupKey st.pending_responses n = none) :
    st.processFrame d = (st, false) := by
  unfold CDPClient.processFrame
  rw [hid]
  simp [Json.asInt, hp]

/-- Order-independent correlation of the receive loop: over any finite
stream of response frames with pairwise-distinct ids, each of which is
either pending-unresolved or unknown at the start, the loop runs to the
end of the stream, leaves every id not in the stream untouched, and
resolves each pending id with exactly the envelope that carries that id. -/
theorem receive_loop_resolves_matching (st : CDPClient)
    (frames : List RawFrame)
    (hresp : ∀ f ∈ frames, (frameId f).isSome = true)
    (hnodup : (frames.filterMap frameId).Nodup)
    (hpend : ∀ i ∈ frames.filterMap frameId,
        lookupKey st.pending_responses i = some FutureState.unresolved ∨
        lookupKey st.pending_responses i = none) :
    (st.receiveLoop frames).2 = LoopEnd.streamEnded ∧
    (∀ m, m ∉ frames.filterMap frameId →
        lookupKey (st.receiveLoop frames).1.pending_responses m =
          lookupKey st.pending_responses m) ∧
    (∀ d i, RawFrame.frame d ∈ frames →
        lookupKey d "id" = some (Json.num i) →
        lookupKey st.pending_responses i = some FutureState.unresolved →
        lookupKey (st.receiveLoop frames).1.pending_responses i =
          some (FutureState.result d)) := by
  revert hresp hnodup hpend
  induction frames generalizing st with
  | nil =>
      intro hresp hnodup hpend
      exact ⟨rfl, fun m _ => rfl, fun d i hd _ _ => absurd hd (List.not_mem_nil _)⟩
  | cons f rest ih =>
      intro hresp hnodup hpend
      have hf : (frameId f).isSome = true := hresp f (List.mem_cons_self f rest)
      obtain ⟨i0, hi0⟩ := Option.isSome_iff_exists.mp hf
      cases f with
      | bad => simp [frameId] at hi0
      | frame d0 =>
          have hid0 : lookupKey d0 "id" = some (Json.num i0) :=
            (frameId_frame_iff d0 i0).mp hi0
          have hids : (RawFrame.frame d0 :: rest).filterMap frameId =
              i0 :: rest.filterMap frameId := by
            simp [List.filterMap_cons, hi0]
          rw [hids] at hnodup hpend
          have hi0notin : i0 ∉ rest.filterMap frameId := (List.nodup_cons.mp hnodup).1
          have hnodup1 := (List.nodup_cons.mp hnodup).2
          have hresp1 : ∀ g ∈ rest, (frameId g).isSome = true :=
            fun g hg => hresp g (List.mem_cons_of_mem _ hg)
          rw [hids]
          rcases hpend i0 (List.mem_cons_self _ _) with hunres | hnone
          · have hpf := processFrame_resolves st d0 i0 hid0 hunres
            have hloop : st.receiveLoop (RawFrame.frame d0 :: rest) =
                ({ st with pending_responses := resolveKey st.pending_responses i0 d0 }).receiveLoop rest := by
              simp [CDPClient.receiveLoop, hpf]
            have hpend1 : ∀ i ∈ rest.filterMap frameId,
                lookupKey ({ st with pending_responses := resolveKey st.pending_responses i0 d0 }).pending_responses i =
                  some FutureState.unresolved ∨
                lookupKey ({ st with pending_responses := resolveKey st.pending_responses i0 d0 }).pending_responses i = none := by
              intro i hi
              have hne : i ≠ i0 := fun he => hi0notin (he ▸ hi)
              show lookupKey (resolveKey st.pending_responses i0 d0) i = _ ∨
                   lookupKey (resolveKey st.pending_responses i0 d0) i = _
              rw [lookup_resolveKey_other _ _ _ _ hne]
              exact hpend i (List.mem_cons_of_mem _ hi)
            obtain ⟨hend, hother, hres⟩ :=
              ih ({ st with pending_responses := resolveKey st.pending_responses i0 d0 }) hresp1 hnodup1 hpend1
            rw [hloop]
            refine ⟨hend, ?_, ?_⟩
            · intro m hm
              have hm1 : m ∉ rest.filterMap frameId :=
                fun h => hm (List.mem_cons_of_mem _ h)
              have hm0 : m ≠ i0 := fun he => hm (he ▸ List.mem_cons_self _ _)
              rw [hother m hm1]
              show lookupKey (resolveKey st.pending_responses i0 d0) m = _
              exact lookup_resolveKey_other _ _ _ _ hm0
            · intro d i hd hidd hunr
              rcases List.mem_cons.mp hd with hd0 | hdrest
              · injection hd0 with hdd
                subst hdd
                have hii : i0 = i := by
                  rw [hid0] at hidd
                  exact Json.num.inj (Option.some.inj hidd)
                subst hii
                rw [hother i0 hi0notin]
                show lookupKey (resolveKey st.pending_responses i0 d) i0 = _
                exact lookup_resolveKey_self _ _ _ _ hunr
              · have hne : i ≠ i0 := by
                  intro he
                  apply hi0notin
                  rw [← he]
                  exact List.mem_filterMap.mpr
                    ⟨RawFrame.frame d, hdrest, (frameId_frame_iff d i).mpr hidd⟩
                apply hres d i hdrest hidd
                show lookupKey (resolveKey st.pending_responses i0 d0) i = _
                rw [lookup_resolveKey_other _ _ _ _ hne]
                exact hunr
          · have hpf := processFrame_unknown_id st d0 i0 hid0 hnone
            have hloop : st.receiveLoop (RawFrame.frame d0 :: rest) =
                st.receiveLoop rest := by
              simp [CDPClient.receiveLoop, hpf]
            have hpend1 : ∀ i ∈ rest.filterMap frameId,
                lookupKey st.pending_responses i = some FutureState.unresolved ∨
                lookupKey st.pending_responses i = none :=
              fun i hi => hpend i (List.mem_cons_of_mem _ hi)
            obtain ⟨hend, hother, hres⟩ := ih st hresp1 hnodup1 hpend1
            rw [hloop]
            refine ⟨hend, ?_, ?_⟩
            · intro m hm
              exact hother m (fun h => hm (List.mem_cons_of_mem _ h))
            · intro d i hd hidd hunr
              rcases List.mem_cons.mp hd with hd0 | hdrest
              · injection hd0 with hdd
                subst hdd
                have hii : i0 = i := by
                  rw [hid0] at hidd
                  exact Json.num.inj (Option.some.inj hidd)
                subst hii
                rw [hnone] at hunr
                exact Option.noConfusion hunr
              · exact hres d i hdrest hidd hunr

/-- Issuance allocates a fresh request id: when every pending key is at
most the current counter, the new id `msg_id + 1` is not yet a key of
`pending_responses`, and after issuance it is registered unresolved. -/
theorem issue_allocates_fresh (st : CDPClient) (method : String)
    (params : Option Json) (hconn : st.ws_connected = true)
    (hbound : ∀ k ∈ st.pending_responses.map Prod.fst, k ≤ st.msg_id) :
    lookupKey st.pending_responses (st.msg_id + 1) = none ∧
    (st.send_command_issue method params).2.2 = Except.ok (st.msg_id + 1) ∧
    lookupKey (st.send_command_issue method params).1.pending_responses
        (st.msg_id + 1) = some FutureState.unresolved := by
  have hnone : lookupKey st.pending_responses (st.msg_id + 1) = none := by
    cases hl : lookupKey st.pending_responses (st.msg_id + 1) with
    | none => rfl
    | some v =>
        have hmem := lookupKey_mem_keys _ _ _ hl
        have := hbound _ hmem
        omega
  refine ⟨hnone, ?_, ?_⟩
  · simp [CDPClient.send_command_issue, hconn]
  · simp [CDPClient.send_command_issue, hconn, lookupKey_append, hnone, lookupKey]

/-- Claim C1: for every set of concurrently outstanding `send_command`
calls on one `CDPClient`, each call's result is taken from the response
envelope whose id equals the request id allocated to that call at
issuance, regardless of the order in which responses arrive. Issuance
allocates a fresh id (not colliding with any in-flight request, given the
invariant that pending keys never exceed the counter) and registers an
unresolved future under it; the receive loop, run over the arriving
response frames in ANY order (distinct ids, each pending-unresolved or
unknown), runs to the end of the stream, resolves each call's future with
exactly the envelope carrying that call's id, and touches no other id. -/
theorem send_command_response_correlation (st : CDPClient)
    (frames : List RawFrame)
    (hresp : ∀ f ∈ frames, (frameId f).isSome = true)
    (hnodup : (frames.filterMap frameId).Nodup)
    (hpend : ∀ i ∈ frames.filterMap frameId,
        lookupKey st.pending_responses i = some FutureState.unresolved ∨
        lookupKey st.pending_responses i = none) :
    (∀ method params, st.ws_connected = true →
        (∀ k ∈ st.pending_responses.map Prod.fst, k ≤ st.msg_id) →
        lookupKey st.pending_responses (st.msg_id + 1) = none ∧
        (st.send_command_issue method params).2.2 = Except.ok (st.msg_id + 1) ∧
        lookupKey (st.send_command_issue method params).1.pending_responses
            (st.msg_id + 1) = some FutureState.unresolved) ∧
    (st.receiveLoop frames).2 = LoopEnd.streamEnded ∧
    (∀ m, m ∉ frames.filterMap frameId →
        lookupKey (st.receiveLoop frames).1.pending_responses m =
          lookupKey st.pending_responses m) ∧
    (∀ d i, RawFrame.frame d ∈ frames →
        lookupKey d "id" = some (Json.num i) →
        lookupKey st.pending_responses i = some FutureState.unresolved →
        lookupKey (st.receiveLoop frames).1.pending_responses i =
          some (FutureState.result d)) :=
  ⟨fun method params hconn hbound =>
      issue_allocates_fresh st method params hconn hbound,
   (receive_loop_resolves_matching st frames hresp hnodup hpend).1,
   (receive_loop_resolves_matching st frames hresp hnodup hpend).2.1,
   (receive_loop_resolves_matching st frames hresp hnodup hpend).2.2⟩

/-- Witness for C1 at a concrete client with one pending request (id 1)
and a one-frame stream carrying the matching response. -/
theorem send_command_response_correlation_witness :
    lookupKey ((pendingClient.receiveLoop
        [RawFrame.frame [("id", Json.num 1), ("result", Json.obj [])]]).1).pending_responses 1 =
      some (FutureState.result [("id", Json.num 1), ("result", Json.obj [])]) := by
  have hresp : ∀ f ∈ [RawFrame.frame [("id", Json.num 1), ("result", Json.obj [])]],
      (frameId f).isSome = true := by
    intro f hf
    rw [List.mem_singleton] at hf
    subst hf
    rfl
  have hnodup : ([RawFrame.frame [("id", Json.num 1), ("result", Json.obj [])]].filterMap frameId).Nodup := by
    simp [frameId, lookupKey, Json.asInt]
  have hpend : ∀ i ∈ [RawFrame.frame [("id", Json.num 1), ("result", Json.obj [])]].filterMap frameId,
      lookupKey pendingClient.pending_responses i = some FutureState.unresolved ∨
      lookupKey pendingClient.pending_responses i = none := by
    intro i hi
    simp [frameId, lookupKey, Json.asInt] at hi
    subst hi
    left
    rfl
  exact (send_command_response_correlation pendingClient
      [RawFrame.frame [("id", Json.num 1), ("result", Json.obj [])]]
      hresp hnodup hpend).2.2.2
      [("id", Json.num 1), ("result", Json.obj [])] 1
      (List.mem_singleton.mpr rfl) rfl rfl

/-- Witness for the amended C4 at a concrete client whose handler for
"Custom.event" raises: delivering that event ends the loop. -/
theorem handler_exception_terminates_loop_witness :
    raisingHandlerClient.receiveLoop
        [RawFrame.frame [("method", Json.str "Custom.event")]] =
      ((raisingHandlerClient.handle_event
          [("method", Json.str "Custom.event")]).1, LoopEnd.errorCaught) :=
  handler_exception_terminates_loop raisingHandlerClient
    [("method", Json.str "Custom.event")] "Custom.event" (fun _ => true) []
    rfl rfl rfl rfl
